import Mathlib

/-!
Verification of the connection-lifecycle and call-resilience core of a
gRPC client library (lnd_grpc).

The embedding models:
* `Lightning.lightning_stub` (lightning.py, the lazy stub/channel rebuild
  under the `connection_status_change` dirty flag),
* `retry` and `get_persistent_client` (lnd_grpc.py, the single-retry
  invoker for UNAVAILABLE failures),
* `ObjectProxy` (object_proxy.py, attribute-interception proxy),
* the request generators used by the streaming payment calls,
* `add_invoice` default-argument capture and `new_address` dispatch.

Channels are identified by the value of a build counter at the moment
`grpc.secure_channel` is called; `closed` records every channel id on
which `close()` was invoked. Remote behaviour (success/failure of each
RPC attempt) is an oracle indexed by the attempt number.
-/

namespace LndGrpc

/-- grpc.StatusCode values relevant to the retry logic. -/
inductive StatusCode where
  | ok
  | cancelled
  | unknown
  | invalidArgument
  | deadlineExceeded
  | notFound
  | unavailable
  | internal
  | unauthenticated
deriving DecidableEq, Repr

/-- grpc.ChannelConnectivity values delivered to the connectivity callback.
The pre-observation initial value (`UNKNOWN` in the spec) is represented by
`connection_status = none`, matching the source comment
"'None' is channel_status's initialization state." -/
inductive Connectivity where
  | idle
  | connecting
  | ready
  | transientFailure
  | shutdown
deriving DecidableEq, Repr

/-- A Python exception as seen by `retry`: either a `grpc._channel._Rendezvous`
carrying a status code and a details string (the details distinguish the
first attempt's error object from the second attempt's), or any other
exception (which the `except _Rendezvous` handler does not catch). -/
inductive PyErr where
  | rendezvous (code : StatusCode) (details : String)
  | nonRendezvous
deriving DecidableEq, Repr

/-- Connection-related state of a `Lightning` client object:
`_lightning_stub`, `channel`, the set of channels `close()` was called on,
`connection_status`, `connection_status_change`, plus instrumentation
counters: `builds` counts `grpc.secure_channel` constructions (and names the
next fresh channel id), `subscriptions` counts `channel.subscribe` calls. -/
structure LState where
  lightning_stub_cache : Option Nat
  channel : Option Nat
  closed : List Nat
  connection_status : Option Connectivity
  connection_status_change : Bool
  builds : Nat
  subscriptions : Nat
deriving DecidableEq, Repr

/-- Modelled from the spec: the initial connection state set up by
`BaseClient.__init__` (base_client.py is not under src/). Per spec section 3,
`dirty` starts `true` and the connectivity state starts at its
pre-observation initial value (`None`); lightning.py itself sets
`self._lightning_stub = None` in `Lightning.__init__`. -/
def initLState : LState :=
  { lightning_stub_cache := none
    channel := none
    closed := []
    connection_status := none
    connection_status_change := true
    builds := 0
    subscriptions := 0 }

/-- Modelled from the spec: `connectivity_event_logger`, the callback
subscribed to the channel, lives in base_client.py (not under src/). Per
spec sections 3 and 4.2 it records the observed connectivity state and sets
the dirty flag on every state-change notification. -/
def connectivity_event_logger (st : Connectivity) (s : LState) : LState :=
  { s with connection_status := some st, connection_status_change := true }

/-- The rebuild path of the `Lightning.lightning_stub` property
(lightning.py lines 88-108): open a fresh secure channel (the existing
channel, if any, is merely overwritten, never closed here), subscribe the
connectivity callback, build a new stub bound to the new channel, then
clear the dirty flag unless `connection_status` is still `None`. -/
def lightning_stub_rebuild (s : LState) : Nat × LState :=
  let chId := s.builds
  let s1 : LState := { s with channel := some chId, builds := s.builds + 1 }
  let s2 : LState := { s1 with subscriptions := s1.subscriptions + 1 }
  let stub := chId
  let s3 : LState := { s2 with lightning_stub_cache := some stub }
  if s3.connection_status = none then
    (stub, { s3 with connection_status_change := true })
  else
    (stub, { s3 with connection_status_change := false })

/-- The `Lightning.lightning_stub` property (lightning.py lines 84-108):
if a stub exists and `connection_status_change` is `False`, return the
cached stub with no side effect; otherwise rebuild channel and stub. -/
def lightning_stub (s : LState) : Nat × LState :=
  match s.lightning_stub_cache, s.connection_status_change with
  | some stub, false => (stub, s)
  | _, _ => lightning_stub_rebuild s

/-- `can_retry` from `retry` (lnd_grpc.py lines 33-34): the exception has a
`code` attribute (every `_Rendezvous` does) and it equals
`grpc.StatusCode.UNAVAILABLE`. -/
def can_retry (e : PyErr) : Bool :=
  match e with
  | PyErr.rendezvous code _ => code == StatusCode.unavailable
  | PyErr.nonRendezvous => false

/-- `retry` from lnd_grpc.py lines 32-46. The wrapped callable is an
attempt-indexed state transformer (the index models the remote side's
behaviour on each attempt). Returns the call outcome, the final client
state, and the number of attempts executed. Only `_Rendezvous` errors are
caught; on a retryable one the dirty flag is set, `close()` is called on
`target.channel` when it is not `None`, and the callable runs once more. -/
def retry {α : Type} (op : Nat → LState → Except PyErr α × LState)
    (target : LState) : Except PyErr α × LState × Nat :=
  match op 0 target with
  | (Except.ok v, t1) => (Except.ok v, t1, 1)
  | (Except.error e, t1) =>
    match e with
    | PyErr.nonRendezvous => (Except.error e, t1, 1)
    | PyErr.rendezvous code d =>
      if can_retry (PyErr.rendezvous code d) = false then
        (Except.error (PyErr.rendezvous code d), t1, 1)
      else
        let t2 : LState := { t1 with connection_status_change := true }
        let t3 : LState :=
          match t2.channel with
          | some ch => { t2 with closed := ch :: t2.closed }
          | none => t2
        let r := op 1 t3
        (r.1, r.2, 2)

/-- A typical wrapped operation (e.g. `wallet_balance`): it reads
`self.lightning_stub` (possibly rebuilding channel and stub) and then the
RPC outcome is given by the attempt-indexed oracle `outcome`. -/
def stubOp {α : Type} (outcome : Nat → Except PyErr α)
    (attempt : Nat) (s : LState) : Except PyErr α × LState :=
  (outcome attempt, (lightning_stub s).2)

/-- An attribute of the proxied client object, as observed by
`ObjectProxy.__getattr__` via `callable(target_attr)`: either a plain
(non-callable) value or a callable bound method. -/
inductive PyAttr (V Op : Type) where
  | value (v : V)
  | callable (f : Op)

/-- The type of a bound method of the client: applied to arguments it
becomes an attempt-indexed state transformer on the connection state. -/
def BoundMethod (A R : Type) : Type :=
  A → Nat → LState → Except PyErr R × LState

/-- `ObjectProxy` (object_proxy.py): holds the target (its attribute table
and its mutable connection state), the invoker, and the optional bound
callable captured by `__getattr__`. -/
structure ObjectProxy (V A R : Type) where
  target_attrs : String → PyAttr V (BoundMethod A R)
  target_state : LState
  invoker : BoundMethod A R → A → LState → Except PyErr R × LState × Nat
  target_callable : Option (BoundMethod A R) := none

/-- Result of `ObjectProxy.__getattr__`: either the target's non-callable
attribute value returned unchanged, or a fresh proxy wrapping the callable. -/
inductive GetattrResult (V A R : Type) where
  | plain (v : V)
  | proxy (p : ObjectProxy V A R)

/-- `ObjectProxy.__getattr__` (object_proxy.py lines 8-13): fetch the
target's attribute; return it directly when not callable, otherwise return
a new proxy with `target_callable` bound to it. -/
def objectProxy_getattr {V A R : Type} (p : ObjectProxy V A R)
    (name : String) : GetattrResult V A R :=
  match p.target_attrs name with
  | PyAttr.value v => GetattrResult.plain v
  | PyAttr.callable f =>
    GetattrResult.proxy { p with target_callable := some f }

/-- `ObjectProxy.__call__` (object_proxy.py lines 15-16): run the invoker
on the target and the captured callable with the given arguments. `none`
models the `TypeError` raised when no callable was captured. -/
def objectProxy_call {V A R : Type} (p : ObjectProxy V A R) (args : A) :
    Option (Except PyErr R × LState × Nat) :=
  p.target_callable.map (fun f => p.invoker f args p.target_state)

/-- `get_persistent_client` (lnd_grpc.py lines 49-50): wrap the client in
an `ObjectProxy` whose invoker is `retry`. -/
def get_persistent_client {V A R : Type}
    (attrs : String → PyAttr V (BoundMethod A R)) (state : LState) :
    ObjectProxy V A R :=
  { target_attrs := attrs
    target_state := state
    invoker := fun f args s => retry (f args) s
    target_callable := none }

/-- Events performed by a Python generator body: yielding a request to the
consumer, or calling `time.sleep` for the given number of seconds. -/
inductive GenEvent (R : Type) where
  | yielded (r : R)
  | slept (seconds : Nat)
deriving DecidableEq, Repr

/-- Whether a generator event is a yield. -/
def GenEvent.isYield {R : Type} : GenEvent R → Bool
  | GenEvent.yielded _ => true
  | GenEvent.slept _ => false

/-- `ln.SendRequest(**kwargs)`: the request message, kept abstract in its
keyword arguments. -/
structure SendRequest (K : Type) where
  kwargs : K
deriving DecidableEq, Repr

/-- `Lightning.send_request_generator` (lightning.py lines 422-436) as its
event trace: build one `SendRequest`, yield it, then `time.sleep(5)` and
finish (the `while True` loop is commented out in the source). -/
def send_request_generator {K : Type} (kwargs : K) :
    List (GenEvent (SendRequest K)) :=
  [GenEvent.yielded { kwargs := kwargs }, GenEvent.slept 5]

/-- The fields of an `ln.Invoice`-like object used by
`send_to_route_generator` (`invoice.r_hash`). -/
structure InvoiceObj (H : Type) where
  r_hash : H
deriving DecidableEq, Repr

/-- `ln.SendToRouteRequest(payment_hash=..., route=...)`. -/
structure SendToRouteRequest (H R : Type) where
  payment_hash : H
  route : R
deriving DecidableEq, Repr

/-- `Lightning.send_to_route_generator` (lightning.py lines 502-515) as its
event trace: build one `SendToRouteRequest` from the invoice's `r_hash` and
the route, yield it, then `time.sleep(5)` and finish. -/
def send_to_route_generator {H R : Type} (invoice : InvoiceObj H) (route : R) :
    List (GenEvent (SendToRouteRequest H R)) :=
  [GenEvent.yielded { payment_hash := invoice.r_hash, route := route },
   GenEvent.slept 5]

/-- The default values of `Lightning.add_invoice`'s parameters. In Python,
default-parameter expressions are evaluated once, when the enclosing `def`
is executed — here at class-body execution during module import — so
`creation_date: int = int(time.time())` (lightning.py line 549) captures the
import-time clock reading. -/
structure AddInvoiceDefaults where
  memo : String
  value : Nat
  expiry : Nat
  creation_date : Nat
deriving DecidableEq, Repr

/-- Evaluation of `Lightning.add_invoice`'s parameter defaults at class
definition (module import) time, `import_time` being `int(time.time())`
read at that moment. -/
def add_invoice_defaults (import_time : Nat) : AddInvoiceDefaults :=
  { memo := "", value := 0, expiry := 3600, creation_date := import_time }

/-- The `ln.Invoice` request built by `add_invoice`. -/
structure InvoiceRequest where
  memo : String
  value : Nat
  expiry : Nat
  creation_date : Nat
deriving DecidableEq, Repr

/-- `Lightning.add_invoice` (lightning.py lines 544-563) restricted to the
request it builds: each omitted argument falls back to the default captured
in `defaults`; `call_time` is the clock reading at the moment of the call,
which the body never consults. -/
def add_invoice (defaults : AddInvoiceDefaults)
    (memo : Option String) (value : Option Nat) (expiry : Option Nat)
    (creation_date : Option Nat) (call_time : Nat) : InvoiceRequest :=
  { memo := memo.getD defaults.memo
    value := value.getD defaults.value
    expiry := expiry.getD defaults.expiry
    creation_date := creation_date.getD defaults.creation_date }

/-- Outcome of `Lightning.new_address`'s dispatch on `address_type`:
either it proceeds to issue the `NewAddress` RPC with the given request
type, or it executes `return TypeError(...)` — handing the `TypeError`
object back as the return value, without raising and without any RPC. -/
inductive NewAddressOutcome where
  | issuesRpc (requestType : String)
  | returnsTypeError (msg : String)
deriving DecidableEq, Repr

/-- Whether the `new_address` outcome issues an RPC. -/
def NewAddressOutcome.issuesAnRpc : NewAddressOutcome → Bool
  | NewAddressOutcome.issuesRpc _ => true
  | NewAddressOutcome.returnsTypeError _ => false

/-- `Lightning.new_address` (lightning.py lines 191-207): map `"p2wkh"` and
`"np2wkh"` to their request types and fall through to the RPC; any other
string is answered with `return TypeError("invalid address type %s, ...")`. -/
def new_address (address_type : String) : NewAddressOutcome :=
  if address_type = "p2wkh" then
    NewAddressOutcome.issuesRpc "WITNESS_PUBKEY_HASH"
  else if address_type = "np2wkh" then
    NewAddressOutcome.issuesRpc "NESTED_PUBKEY_HASH"
  else
    NewAddressOutcome.returnsTypeError
      ("invalid address type " ++ address_type ++
        ", supported address type are: p2wkh and np2wkh")

/-- A warm connection state: cached stub bound to channel 0, observed READY
connectivity, dirty flag clear. -/
def warmState : LState :=
  { lightning_stub_cache := some 0
    channel := some 0
    closed := []
    connection_status := some Connectivity.ready
    connection_status_change := false
    builds := 1
    subscriptions := 1 }

/-- Remote behaviour: UNAVAILABLE on the first attempt, success afterwards. -/
def demoOutRecovers : Nat → Except PyErr Nat
  | 0 => Except.error (PyErr.rendezvous StatusCode.unavailable "first attempt")
  | _ => Except.ok 7

/-- Remote behaviour: UNAVAILABLE on every attempt, with distinct error
objects per attempt. -/
def demoOutDoubleFailure : Nat → Except PyErr Nat
  | 0 => Except.error (PyErr.rendezvous StatusCode.unavailable "first attempt")
  | _ => Except.error (PyErr.rendezvous StatusCode.unavailable "second attempt")

/-- Remote behaviour: a request-level rejection (INVALID_ARGUMENT). -/
def demoOutRejected : Nat → Except PyErr Nat
  | _ => Except.error (PyErr.rendezvous StatusCode.invalidArgument "bad request")

/-- A demonstration bound method of the client: always succeeds with 42. -/
def demoMethod : BoundMethod Nat Nat :=
  fun _args _attempt s => (Except.ok 42, s)

/-- A demonstration attribute table: `"version"` is a plain value, every
other attribute is the callable `demoMethod`. -/
def demoAttrs : String → PyAttr Nat (BoundMethod Nat Nat) :=
  fun name =>
    if name = "version" then PyAttr.value 1 else PyAttr.callable demoMethod

/-! ## Helper lemmas -/

/-- On a cache hit (`_lightning_stub` set, dirty flag clear) the accessor
returns the cached stub and leaves the state untouched. -/
theorem lightning_stub_hit (s : LState) (stub : Nat)
    (hcache : s.lightning_stub_cache = some stub)
    (hdirty : s.connection_status_change = false) :
    lightning_stub s = (stub, s) := by
  unfold lightning_stub
  rw [hcache, hdirty]

/-- When no cached stub exists or the dirty flag is set, the accessor takes
the rebuild path. -/
theorem lightning_stub_miss (s : LState)
    (h : ¬ (s.lightning_stub_cache.isSome = true ∧
        s.connection_status_change = false)) :
    lightning_stub s = lightning_stub_rebuild s := by
  rcases hc : s.lightning_stub_cache with _ | stub <;>
    rcases hd : s.connection_status_change
  · unfold lightning_stub; rw [hc, hd]
  · unfold lightning_stub; rw [hc, hd]
  · exact absurd ⟨by simp [hc], hd⟩ h
  · unfold lightning_stub; rw [hc, hd]

/-- Explicit form of the rebuild path: a fresh channel named by the build
counter, one extra subscription, the stub bound to the fresh channel, the
dirty flag recomputed from `connection_status`, and `closed` untouched. -/
theorem lightning_stub_rebuild_spec (s : LState) :
    lightning_stub_rebuild s =
      (s.builds,
        { lightning_stub_cache := some s.builds
          channel := some s.builds
          closed := s.closed
          connection_status := s.connection_status
          connection_status_change := decide (s.connection_status = none)
          builds := s.builds + 1
          subscriptions := s.subscriptions + 1 }) := by
  unfold lightning_stub_rebuild
  rcases h : s.connection_status with _ | st <;> simp [h]

/-! ## Claim theorems -/

/-- C1: for every connection state (hence after every sequence of
connectivity-state notifications), the stub accessor performs no channel
construction and returns the cached handle with the state unchanged if and
only if a handle exists and the dirty flag is `false`; in every other case
it performs exactly one channel-and-stub rebuild (the build counter rises by
exactly one — never zero, never two). -/
theorem lightning_stub_cache_hit_iff (s : LState) :
    ((lightning_stub s).2.builds = s.builds
        ↔ (s.lightning_stub_cache.isSome = true ∧
            s.connection_status_change = false))
    ∧ (∀ stub, s.lightning_stub_cache = some stub →
        s.connection_status_change = false → lightning_stub s = (stub, s))
    ∧ (¬ (s.lightning_stub_cache.isSome = true ∧
          s.connection_status_change = false) →
        (lightning_stub s).2.builds = s.builds + 1) := by
  refine ⟨⟨?_, ?_⟩, ?_, ?_⟩
  · intro hEq
    by_contra hb
    rw [lightning_stub_miss s hb, lightning_stub_rebuild_spec] at hEq
    have : s.builds + 1 = s.builds := by simpa using hEq
    omega
  · rintro ⟨h1, h2⟩
    obtain ⟨stub, hstub⟩ := Option.isSome_iff_exists.mp h1
    rw [lightning_stub_hit s stub hstub h2]
  · intro stub hstub hdirty
    exact lightning_stub_hit s stub hstub hdirty
  · intro hb
    rw [lightning_stub_miss s hb, lightning_stub_rebuild_spec]

/-- Witness for C1: on a warm state the accessor returns the cached stub
with no state change, and on the initial state it performs exactly one
build. -/
theorem lightning_stub_cache_hit_iff_witness :
    lightning_stub
        { lightning_stub_cache := some 0
          channel := some 0
          closed := []
          connection_status := some Connectivity.ready
          connection_status_change := false
          builds := 1
          subscriptions := 1 } =
      (0,
        { lightning_stub_cache := some 0
          channel := some 0
          closed := []
          connection_status := some Connectivity.ready
          connection_status_change := false
          builds := 1
          subscriptions := 1 })
    ∧ (lightning_stub initLState).2.builds = initLState.builds + 1 :=
  ⟨(lightning_stub_cache_hit_iff _).2.1 0 rfl rfl,
   (lightning_stub_cache_hit_iff initLState).2.2 (by decide)⟩

/-- C5: whenever the accessor rebuilds, the dirty flag afterwards is `true`
exactly when the observed connectivity state is still its pre-observation
initial value (`connection_status = none`); and a freshly constructed
client starts dirty, its first accessor call performing exactly one
channel build. -/
theorem lightning_stub_dirty_after_rebuild (s : LState)
    (h : ¬ (s.lightning_stub_cache.isSome = true ∧
        s.connection_status_change = false)) :
    ((lightning_stub s).2.connection_status_change = true
        ↔ s.connection_status = none)
    ∧ initLState.connection_status_change = true
    ∧ (lightning_stub initLState).2.builds = 1 := by
  refine ⟨?_, rfl, rfl⟩
  rw [lightning_stub_miss s h, lightning_stub_rebuild_spec]
  simp

/-- Witness for C5, instantiated at the freshly constructed client. -/
theorem lightning_stub_dirty_after_rebuild_witness :
    ((lightning_stub initLState).2.connection_status_change = true
        ↔ initLState.connection_status = none)
    ∧ initLState.connection_status_change = true
    ∧ (lightning_stub initLState).2.builds = 1 :=
  lightning_stub_dirty_after_rebuild initLState (by decide)

/-- C6 counterexample: in a state holding a live, never-closed channel 0
and a set dirty flag, the accessor rebuilds (the build counter rises from 1
to 2 and channel 1 replaces channel 0) yet `close()` is never invoked: the
`closed` log stays empty. The accessor does not close the existing channel
before opening the new one. -/
theorem lightning_stub_rebuild_leaks_channel :
    (lightning_stub
        { lightning_stub_cache := none
          channel := some 0
          closed := []
          connection_status := some Connectivity.ready
          connection_status_change := true
          builds := 1
          subscriptions := 1 }).2.closed = []
    ∧ (lightning_stub
        { lightning_stub_cache := none
          channel := some 0
          closed := []
          connection_status := some Connectivity.ready
          connection_status_change := true
          builds := 1
          subscriptions := 1 }).2.builds = 2
    ∧ (lightning_stub
        { lightning_stub_cache := none
          channel := some 0
          closed := []
          connection_status := some Connectivity.ready
          connection_status_change := true
          builds := 1
          subscriptions := 1 }).2.channel = some 1 :=
  ⟨rfl, rfl, rfl⟩

/-- C6 amended: whenever the stub accessor rebuilds (no handle, or dirty
flag set), it opens a new secure channel, subscribes the connectivity
callback, and builds a fresh call handle bound to the new channel — but it
overwrites the channel reference without ever calling `close()` on the
pre-existing channel (`closed` is unchanged); the old channel is closed
only by the retry path in lnd_grpc.py. -/
theorem lightning_stub_rebuild_no_close (s : LState)
    (h : ¬ (s.lightning_stub_cache.isSome = true ∧
        s.connection_status_change = false)) :
    (lightning_stub s).1 = s.builds
    ∧ (lightning_stub s).2.channel = some s.builds
    ∧ (lightning_stub s).2.lightning_stub_cache = some s.builds
    ∧ (lightning_stub s).2.subscriptions = s.subscriptions + 1
    ∧ (lightning_stub s).2.builds = s.builds + 1
    ∧ (lightning_stub s).2.closed = s.closed := by
  rw [lightning_stub_miss s h, lightning_stub_rebuild_spec]
  exact ⟨rfl, rfl, rfl, rfl, rfl, rfl⟩

/-- C2: if the first attempt of a stub-using operation fails with an
UNAVAILABLE `_Rendezvous`, `retry` sets the dirty flag, calls `close()` on
the channel when one is present, runs the operation exactly once more, and
on success of that second attempt returns the attempt-2 result with the
connection rebuilt exactly once (the build counter rises by exactly one
over the whole invocation). -/
theorem retry_unavailable_then_success {α : Type} (out : Nat → Except PyErr α)
    (v : α) (d : String) (s : LState) (stub : Nat)
    (hcache : s.lightning_stub_cache = some stub)
    (hdirty : s.connection_status_change = false)
    (h0 : out 0 = Except.error (PyErr.rendezvous StatusCode.unavailable d))
    (h1 : out 1 = Except.ok v) :
    (retry (stubOp out) s).1 = Except.ok v
    ∧ (retry (stubOp out) s).2.2 = 2
    ∧ (retry (stubOp out) s).2.1.builds = s.builds + 1
    ∧ (∀ ch, s.channel = some ch → ch ∈ (retry (stubOp out) s).2.1.closed) := by
  have hrw : ∀ t : LState, t.connection_status_change = true →
      lightning_stub t = lightning_stub_rebuild t := fun t ht =>
    lightning_stub_miss t (by simp [ht])
  rcases hch : s.channel with _ | ch0 <;>
    simp [retry, stubOp, lightning_stub_hit s stub hcache hdirty, h0, h1,
      can_retry, hch, hrw, lightning_stub_rebuild_spec]

/-- Witness for C2: a warm connection, UNAVAILABLE once, success on the
retried attempt; channel 0 is closed and the connection rebuilt once. -/
theorem retry_unavailable_then_success_witness :
    (retry (stubOp demoOutRecovers) warmState).1 = Except.ok 7
    ∧ (retry (stubOp demoOutRecovers) warmState).2.2 = 2
    ∧ (retry (stubOp demoOutRecovers) warmState).2.1.builds = 2
    ∧ 0 ∈ (retry (stubOp demoOutRecovers) warmState).2.1.closed :=
  ⟨(retry_unavailable_then_success demoOutRecovers 7 "first attempt"
      warmState 0 rfl rfl rfl rfl).1,
   (retry_unavailable_then_success demoOutRecovers 7 "first attempt"
      warmState 0 rfl rfl rfl rfl).2.1,
   (retry_unavailable_then_success demoOutRecovers 7 "first attempt"
      warmState 0 rfl rfl rfl rfl).2.2.1,
   (retry_unavailable_then_success demoOutRecovers 7 "first attempt"
      warmState 0 rfl rfl rfl rfl).2.2.2 0 rfl⟩

/-- C3: when both attempts fail with UNAVAILABLE `_Rendezvous` errors,
`retry` raises the second attempt's error object (not the first attempt's)
and executes exactly two attempts — no third attempt exists. -/
theorem retry_double_unavailable {α : Type} (out : Nat → Except PyErr α)
    (d : String) (e2 : PyErr) (s : LState)
    (h0 : out 0 = Except.error (PyErr.rendezvous StatusCode.unavailable d))
    (h1 : out 1 = Except.error e2) :
    (retry (stubOp out) s).1 = Except.error e2
    ∧ (retry (stubOp out) s).2.2 = 2 := by
  simp [retry, stubOp, h0, h1, can_retry]

/-- Witness for C3: two UNAVAILABLE failures with distinct details; the
second attempt's error surfaces after exactly two attempts. -/
theorem retry_double_unavailable_witness :
    (retry (stubOp demoOutDoubleFailure) warmState).1 =
      Except.error (PyErr.rendezvous StatusCode.unavailable "second attempt")
    ∧ (retry (stubOp demoOutDoubleFailure) warmState).2.2 = 2 :=
  retry_double_unavailable demoOutDoubleFailure "first attempt"
    (PyErr.rendezvous StatusCode.unavailable "second attempt") warmState rfl rfl

/-- C4: when the first attempt fails with any error not classified as
UNAVAILABLE, `retry` re-raises that same error after exactly one attempt
and leaves the connection state exactly as it found it: dirty flag untouched,
no channel closed, no rebuild. -/
theorem retry_non_retryable_propagates {α : Type} (out : Nat → Except PyErr α)
    (e : PyErr) (s : LState) (stub : Nat)
    (hcache : s.lightning_stub_cache = some stub)
    (hdirty : s.connection_status_change = false)
    (h0 : out 0 = Except.error e)
    (hne : can_retry e = false) :
    retry (stubOp out) s = (Except.error e, s, 1) := by
  cases e with
  | nonRendezvous =>
    simp [retry, stubOp, lightning_stub_hit s stub hcache hdirty, h0]
  | rendezvous code dd =>
    simp [retry, stubOp, lightning_stub_hit s stub hcache hdirty, h0, hne]

/-- Witness for C4: an INVALID_ARGUMENT rejection surfaces unchanged after
one attempt, with the warm state returned verbatim. -/
theorem retry_non_retryable_propagates_witness :
    retry (stubOp demoOutRejected) warmState =
      (Except.error (PyErr.rendezvous StatusCode.invalidArgument "bad request"),
        warmState, 1) :=
  retry_non_retryable_propagates demoOutRejected
    (PyErr.rendezvous StatusCode.invalidArgument "bad request")
    warmState 0 rfl rfl rfl rfl

/-- Witness for the amended C6, instantiated at the counterexample state. -/
theorem lightning_stub_rebuild_no_close_witness :
    (lightning_stub
        { lightning_stub_cache := none
          channel := some 0
          closed := []
          connection_status := some Connectivity.ready
          connection_status_change := true
          builds := 1
          subscriptions := 1 }).1 = 1
    ∧ (lightning_stub
        { lightning_stub_cache := none
          channel := some 0
          closed := []
          connection_status := some Connectivity.ready
          connection_status_change := true
          builds := 1
          subscriptions := 1 }).2.channel = some 1
    ∧ (lightning_stub
        { lightning_stub_cache := none
          channel := some 0
          closed := []
          connection_status := some Connectivity.ready
          connection_status_change := true
          builds := 1
          subscriptions := 1 }).2.lightning_stub_cache = some 1
    ∧ (lightning_stub
        { lightning_stub_cache := none
          channel := some 0
          closed := []
          connection_status := some Connectivity.ready
          connection_status_change := true
          builds := 1
          subscriptions := 1 }).2.subscriptions = 2
    ∧ (lightning_stub
        { lightning_stub_cache := none
          channel := some 0
          closed := []
          connection_status := some Connectivity.ready
          connection_status_change := true
          builds := 1
          subscriptions := 1 }).2.builds = 2
    ∧ (lightning_stub
        { lightning_stub_cache := none
          channel := some 0
          closed := []
          connection_status := some Connectivity.ready
          connection_status_change := true
          builds := 1
          subscriptions := 1 }).2.closed = [] :=
  lightning_stub_rebuild_no_close _ (by decide)

/-- C7: the proxy built by `get_persistent_client` works for any attribute:
a non-callable attribute of the underlying client is returned unchanged,
and a callable one is returned as a wrapper whose invocation with any
arguments executes exactly `retry` applied to that bound operation with
those arguments on the client's state. -/
theorem get_persistent_client_dispatch {V A R : Type}
    (attrs : String → PyAttr V (BoundMethod A R)) (s : LState)
    (name : String) (args : A) :
    (∀ v, attrs name = PyAttr.value v →
        objectProxy_getattr (get_persistent_client attrs s) name =
          GetattrResult.plain v)
    ∧ (∀ f, attrs name = PyAttr.callable f →
        objectProxy_getattr (get_persistent_client attrs s) name =
          GetattrResult.proxy
            { get_persistent_client attrs s with target_callable := some f }
        ∧ objectProxy_call
            { get_persistent_client attrs s with target_callable := some f }
            args = some (retry (f args) s)) := by
  constructor
  · intro v hv
    simp [objectProxy_getattr, get_persistent_client, hv]
  · intro f hf
    constructor
    · simp [objectProxy_getattr, get_persistent_client, hf]
    · simp [objectProxy_call, get_persistent_client]

/-- Witness for C7: the plain `"version"` attribute passes through, and a
callable attribute becomes a wrapper that runs `retry` on the bound method. -/
theorem get_persistent_client_dispatch_witness :
    objectProxy_getattr (get_persistent_client demoAttrs initLState)
        "version" = GetattrResult.plain 1
    ∧ (objectProxy_getattr (get_persistent_client demoAttrs initLState)
          "wallet_balance" =
        GetattrResult.proxy
          { get_persistent_client demoAttrs initLState with
              target_callable := some demoMethod }
      ∧ objectProxy_call
          { get_persistent_client demoAttrs initLState with
              target_callable := some demoMethod } 3 =
        some (retry (demoMethod 3) initLState)) :=
  ⟨(get_persistent_client_dispatch demoAttrs initLState "version" 3).1 1
      (by simp [demoAttrs]),
   (get_persistent_client_dispatch demoAttrs initLState "wallet_balance" 3).2
      demoMethod (by simp [demoAttrs])⟩

/-- C8: both request-producer generators of the bidirectional-streaming
payment operations yield exactly one request and then perform a fixed
`time.sleep(5)` before the producer completes. -/
theorem generators_yield_once_then_sleep {K H R : Type}
    (kwargs : K) (invoice : InvoiceObj H) (route : R) :
    send_request_generator kwargs =
      [GenEvent.yielded { kwargs := kwargs }, GenEvent.slept 5]
    ∧ ((send_request_generator kwargs).filter GenEvent.isYield).length = 1
    ∧ send_to_route_generator invoice route =
      [GenEvent.yielded { payment_hash := invoice.r_hash, route := route },
        GenEvent.slept 5]
    ∧ ((send_to_route_generator invoice route).filter
        GenEvent.isYield).length = 1 :=
  ⟨rfl, rfl, rfl, rfl⟩

/-- C9: `add_invoice`'s `creation_date` default is the single clock reading
captured when the class body was executed at module import; every call that
omits `creation_date` uses that same import-time timestamp, independent of
the clock reading at call time. -/
theorem add_invoice_creation_date_import_time (import_time t1 t2 : Nat) :
    (add_invoice (add_invoice_defaults import_time)
        none none none none t1).creation_date = import_time
    ∧ add_invoice (add_invoice_defaults import_time) none none none none t1
      = add_invoice (add_invoice_defaults import_time) none none none none t2 :=
  ⟨rfl, rfl⟩

/-- C10: for every `address_type` other than `"p2wkh"` and `"np2wkh"`,
`new_address` issues no RPC and hands the `TypeError` back as its return
value (the `return TypeError(...)` branch) rather than raising it. -/
theorem new_address_invalid_type_returns_error (t : String)
    (h1 : t ≠ "p2wkh") (h2 : t ≠ "np2wkh") :
    new_address t =
      NewAddressOutcome.returnsTypeError
        ("invalid address type " ++ t ++
          ", supported address type are: p2wkh and np2wkh")
    ∧ (new_address t).issuesAnRpc = false := by
  simp [new_address, h1, h2, NewAddressOutcome.issuesAnRpc]

/-- Witness for C10 at the unsupported type string `"bech32"`. -/
theorem new_address_invalid_type_returns_error_witness :
    new_address "bech32" =
      NewAddressOutcome.returnsTypeError
        ("invalid address type " ++ "bech32" ++
          ", supported address type are: p2wkh and np2wkh")
    ∧ (new_address "bech32").issuesAnRpc = false :=
  new_address_invalid_type_returns_error "bech32" (by decide) (by decide)

end LndGrpc
